import Mathlib

/-!
Verification of the meexprox reverse proxy (Rust) against its
natural-language specification.  The definitions below are a shallow
embedding of the source files `src/meexprox/meexprox.rs`,
`src/meexprox/connection.rs`, `src/meexprox/config.rs`, `src/lib.rs`:
pure functions become Lean functions, the stateful per-session code is
modelled by explicit state passing over a `ProxyPlayer` record, byte
streams are `List Nat` and machine integers are `Nat`/`Int`.
-/

/-! ## Wire primitives (rust_mc_proto codec interface, spec section 4.1)

The codec library `rust_mc_proto` is an external collaborator; the spec
fixes its interface: LEB128 continuation-bit varints, and isize varints
are zigzag-decoded (`read_isize_varint` reads the unsigned varint and
zigzag-decodes it; the `Zigzag` trait's `isize -> usize` direction is the
zigzag re-encoding, used explicitly by the repo at meexprox.rs:336). -/

/-- LEB128 varint encoding of a natural number, least-significant 7 bits
first, continuation bit 0x80 (codec `write_usize_varint`). -/
def writeVarNat (n : Nat) : List Nat :=
  if h : n < 128 then [n]
  else (n % 128 + 128) :: writeVarNat (n / 128)
termination_by n
decreasing_by
  exact Nat.div_lt_self (by omega) (by omega)

/-- LEB128 varint decoding (codec `read_usize_varint`); returns the value
and the remaining bytes, or `none` on end of stream. -/
def readVarNat : List Nat → Option (Nat × List Nat)
  | [] => none
  | b :: rest =>
    if b < 128 then some (b, rest)
    else
      match readVarNat rest with
      | some (n, rest') => some (n * 128 + (b - 128), rest')
      | none => none

/-- Zigzag decoding, codec `Zigzag<isize> for usize`:
`((self >> 1) as isize) ^ (-((self & 1) as isize))`. -/
def zigzagDecode (u : Nat) : Int :=
  if u % 2 = 0 then ((u / 2 : Nat) : Int) else -(((u / 2 : Nat) : Int) + 1)

/-- Zigzag encoding, codec `Zigzag<usize> for isize`:
`((self << 1) ^ (self >> 63)) as usize`. -/
def zigzagEncode (t : Int) : Nat :=
  if 0 ≤ t then (2 * t).toNat else (-2 * t - 1).toNat

/-- Codec `read_isize_varint`: read an unsigned LEB128 varint and
zigzag-decode it. -/
def readIsizeVarint (bs : List Nat) : Option (Int × List Nat) :=
  match readVarNat bs with
  | some (u, rest) => some (zigzagDecode u, rest)
  | none => none

/-- Big-endian unsigned short (codec `write_unsigned_short`). -/
def writeUnsignedShort (n : Nat) : List Nat :=
  [n / 256 % 256, n % 256]

/-- A framed Minecraft packet: varint id plus opaque payload bytes
(codec `Packet`). -/
structure Packet where
  id : Nat
  payload : List Nat
deriving DecidableEq, Repr

/-- `Packet::empty(id)`. -/
def Packet.empty (id : Nat) : Packet := ⟨id, []⟩

/-! ## Configuration (lib.rs revision): `ProxyServer`, `ProxyConfig` -/

/-- `ProxyServer` (lib.rs lines 16-21): a configured upstream. -/
structure ProxyServer where
  name : String
  host : String
  forced_host : Option String
deriving DecidableEq, Repr

/-- `PlayerForwarding` (lib.rs lines 57-62). -/
inductive PlayerForwarding where
  | handshake
  | pluginResponse
  | disabled
deriving DecidableEq, Repr

/-- `ProxyError` (lib.rs lines 33-38). -/
inductive ProxyError where
  | configParse
  | serverConnect
  | eventChanged
deriving DecidableEq, Repr

/-- `ProxyConfig` (lib.rs lines 64-73); the `talk_*` and
`no_pf_for_ip_connect` fields are never consulted by the routing code
the claims are about and are omitted. -/
structure ProxyConfig where
  host : String
  servers : List ProxyServer
  default_server : Option ProxyServer
  player_forwarding : PlayerForwarding
deriving DecidableEq, Repr

/-- `ProxyConfig::get_server_by_forced_host` (lib.rs lines 166-175):
scan `servers` in configuration order, return the first whose
`forced_host` is set and equals the requested host. -/
def ProxyConfig.get_server_by_forced_host (c : ProxyConfig) (forcedHost : String) :
    Option ProxyServer :=
  go c.servers
where
  go : List ProxyServer → Option ProxyServer
  | [] => none
  | s :: rest =>
    match s.forced_host with
    | some fh => if fh = forcedHost then some s else go rest
    | none => go rest

/-- Upstream resolution of `MeexProx::accept_client` (meexprox.rs lines
504-509): forced-host lookup, falling back to the default server; a
resolution failure yields `ProxyError::ConfigParse` and the upstream
dial (which in the source happens strictly after this `?`) is never
attempted.  The boolean records whether the upstream dial is reached. -/
def accept_client_route (c : ProxyConfig) (server_address : String) :
    Except ProxyError ProxyServer × Bool :=
  match (c.get_server_by_forced_host server_address).or c.default_server with
  | some s => (Except.ok s, true)
  | none => (Except.error ProxyError.configParse, false)

/-! ## Player set (meexprox.rs): `remove_player`

Sessions are `Arc<Mutex<ProxyPlayer>>` compared by `Arc::ptr_eq`
(pointer identity); we model each session by a distinct `Nat` token and
pointer equality by `Nat` equality. -/

/-- `Iterator::position(|x| Arc::ptr_eq(x, &player))` on the player
vector (meexprox.rs line 475). -/
def playerPosition (players : List Nat) (player : Nat) : Option Nat :=
  match players with
  | [] => none
  | x :: rest =>
    if x = player then some 0
    else (playerPosition rest player).map (· + 1)

/-- `MeexProx::remove_player` (meexprox.rs lines 474-482): remove the
session at the first position that is pointer-equal to `player`,
returning whether a removal happened. -/
def remove_player (players : List Nat) (player : Nat) : List Nat × Bool :=
  match playerPosition players player with
  | some i => (players.eraseIdx i, true)
  | none => (players, false)

/-- Forwarding-loop termination handler (meexprox.rs lines 391-394 and
422-425): call `remove_player`; dispatch `PlayerDisconnectedEvent` iff
it returned `true`.  Result: (new player set, removal result,
disconnect event emitted). -/
def loop_termination (players : List Nat) (player : Nat) :
    List Nat × Bool × Bool :=
  let r := remove_player players player
  (r.1, r.2, r.2)

/-! ## Domain routing (meexprox/config.rs revision) -/

namespace config

/-- `PlayerForwarding` (meexprox/config.rs lines 38-44). -/
inductive PlayerForwarding where
  | velocity (secret : String)
  | bungeecord (secret : Option String)
  | meexprox (secret : String)
  | none
deriving DecidableEq, Repr

/-- `ServerInfo` (meexprox/config.rs lines 5-11). -/
structure ServerInfo where
  name : String
  host : String
  domains : List String
  player_forwarding : PlayerForwarding
deriving DecidableEq, Repr

/-- `ProxyConfig` (meexprox/config.rs lines 86-93); the `messaging` and
forwarding defaults are irrelevant to domain routing and omitted. -/
structure ProxyConfig where
  host : String
  servers : List ServerInfo
deriving DecidableEq, Repr

/-- One `for server in &self.servers { if server.domains.contains(d) }`
scan (meexprox/config.rs lines 183-187 and 189-193). -/
def findByDomain (servers : List ServerInfo) (domain : String) :
    Option ServerInfo :=
  match servers with
  | [] => none
  | s :: rest =>
    if s.domains.contains domain then some s else findByDomain rest domain

/-- `ProxyConfig::get_server_by_domain` (meexprox/config.rs lines
182-196): first scan for a server listing the domain, then a second
scan for a server listing the wildcard domain `"_"`, else `none`. -/
def ProxyConfig.get_server_by_domain (c : ProxyConfig) (domain : String) :
    Option ServerInfo :=
  match findByDomain c.servers domain with
  | some s => some s
  | none => findByDomain c.servers ("_")

end config

/-! ## Compression negotiation

`meexprox.rs` handles an upstream `0x03` (SetCompression) packet with
the same inline code in the login driver (lines 609-621) and in the
server-swap replay of `ProxyPlayer::connect` (lines 333-344):

    let threshold = packet.read_isize_varint()?;
    if threshold >= 0 {
        let threshold = threshold.zigzag();
        server_conn.set_compression(Some(threshold));
        client_conn.set_compression(Some(threshold));
    } else {
        server_conn.set_compression(None);
        client_conn.set_compression(None);
    }

The result pair is the (client codec, upstream codec) compression
state; `none` models the `?` propagating a varint read error. -/

/-- The upstream `0x03` handler of meexprox.rs lines 333-344 and
609-621 as a function of the packet payload. -/
def handle_compression_packet (payload : List Nat) :
    Option (Option Nat × Option Nat) :=
  match readIsizeVarint payload with
  | none => none
  | some (threshold, _) =>
    if 0 ≤ threshold then
      some (some (zigzagEncode threshold), some (zigzagEncode threshold))
    else
      some (none, none)

/-- The `0x03` arm of `LoginInfo::write` (connection.rs lines 52-55):
the threshold is read as a plain usize varint and `set_compression` is
called on the new upstream stream only; the client-side codec is not
touched (it is not even reachable from `LoginInfo::write`).  Arguments
are the (client codec, upstream stream codec) states before the packet. -/
def LoginInfo.write_compression_step (payload : List Nat)
    (clientComp _streamComp : Option Nat) :
    Option (Option Nat × Option Nat) :=
  match readVarNat payload with
  | none => none
  | some (c, _) => some (clientComp, some c)

/-- The `0x03` arm of `Player::read` (connection.rs lines 128-133):
plain usize varint threshold, applied to both codecs. -/
def Player.read_compression_step (payload : List Nat) :
    Option (Option Nat × Option Nat) :=
  match readVarNat payload with
  | none => none
  | some (c, _) => some (some c, some c)

/-! ## Synthesized EncryptionResponse on server swap -/

/-- The payload of the EncryptionResponse synthesized by
`ProxyPlayer::connect` during a server swap (meexprox.rs lines
313-318).  Note that line 317 writes `shared_secret.len()` a second
time where the verify token's length belongs. -/
def enc_response_payload (shared_secret verify_token : List Nat) : List Nat :=
  writeVarNat shared_secret.length ++ shared_secret ++
    writeVarNat shared_secret.length ++ verify_token

/-- Modelled from the spec: the EncryptionResponse payload layout the
spec states for the swap replay,
`varint(len(shared_secret)) || shared_secret || varint(len(verify_token)) || verify_token`
(this layout is also what `LoginInfo::write` at connection.rs lines
42-47 produces). -/
def spec_enc_response_payload (shared_secret verify_token : List Nat) :
    List Nat :=
  writeVarNat shared_secret.length ++ shared_secret ++
    writeVarNat verify_token.length ++ verify_token

/-! ## Characterization lemmas -/

theorem forced_host_go_eq_find (servers : List ProxyServer) (h : String) :
    ProxyConfig.get_server_by_forced_host.go h servers =
      servers.find? (fun s => s.forced_host = some h) := by
  induction servers with
  | nil => rfl
  | cons s rest ih =>
    simp only [ProxyConfig.get_server_by_forced_host.go, List.find?_cons]
    cases hf : s.forced_host with
    | none => simp [hf, ih]
    | some fh =>
      by_cases he : fh = h
      · simp [he]
      · simp [he, ih, Option.some.injEq]

theorem findByDomain_eq_find (servers : List config.ServerInfo) (d : String) :
    config.findByDomain servers d =
      servers.find? (fun s => s.domains.contains d) := by
  induction servers with
  | nil => rfl
  | cons s rest ih =>
    simp only [config.findByDomain, List.find?_cons]
    by_cases hc : d ∈ s.domains
    · simp [hc]
    · simp [hc, ih]

theorem playerPosition_nil (p : Nat) : playerPosition [] p = none := rfl

theorem remove_player_eq_erase (players : List Nat) (p : Nat) :
    remove_player players p = (players.erase p, decide (p ∈ players)) := by
  induction players with
  | nil => rfl
  | cons x rest ih =>
    by_cases hx : x = p
    · subst hx
      simp [remove_player, playerPosition, List.erase_cons_head]
    · have hx' : ¬ p = x := fun h => hx h.symm
      rw [List.erase_cons_tail (by simpa using hx)]
      simp only [remove_player, playerPosition, if_neg hx] at *
      cases hpos : playerPosition rest p with
      | none =>
        rw [hpos] at ih
        have ih' : (rest, false) = (rest.erase p, decide (p ∈ rest)) := ih
        simp only [hpos, Option.map_none', List.mem_cons]
        have hnm : ¬ p ∈ rest := by
          by_contra hm
          have := congrArg Prod.snd ih'
          simp [hm] at this
        have her : rest.erase p = rest := List.erase_of_not_mem hnm
        simp [hx', hnm, her]
      | some i =>
        rw [hpos] at ih
        have ih' : (rest.eraseIdx i, true) = (rest.erase p, decide (p ∈ rest)) := ih
        simp only [hpos, Option.map_some', List.eraseIdx_cons_succ, List.mem_cons]
        have hm : p ∈ rest := by
          by_contra hmn
          have := congrArg Prod.snd ih'
          simp [hmn] at this
        have h1 := congrArg Prod.fst ih'
        simp only [Prod.fst] at h1
        simp [hx', hm, h1]

/-! ## Claim theorems: C5, C6, C10 -/

/-- C5: For every accepted handshake, upstream resolution first looks
for a configured server whose forced host equals the client-declared
`server_address` (first match in configuration order, expressed by
`List.find?`); if none matches it falls back to the configured default
server; if neither exists the connection is refused with an error and
the upstream dial is never reached. -/
theorem c5_forced_host_resolution (c : ProxyConfig) (server_address : String) :
    accept_client_route c server_address =
      (match c.servers.find? (fun s => s.forced_host = some server_address) with
       | some s => (Except.ok s, true)
       | none =>
         match c.default_server with
         | some d => (Except.ok d, true)
         | none => (Except.error ProxyError.configParse, false)) := by
  unfold accept_client_route
  rw [show c.get_server_by_forced_host server_address =
        ProxyConfig.get_server_by_forced_host.go server_address c.servers from rfl,
      forced_host_go_eq_find]
  cases hf : c.servers.find? (fun s => s.forced_host = some server_address) with
  | some s => simp [Option.or]
  | none =>
    cases hd : c.default_server with
    | some d => simp [Option.or]
    | none => simp [Option.or]

/-- C6: `remove_player` removes the given session (by pointer identity)
and returns `true` iff it is present, removing exactly the first
occurrence (the multiplicity drops by one); hence for a session present
once, of the two forwarding-loop termination calls only the first
returns `true`, and the `PlayerDisconnectedEvent` is emitted by exactly
the call that returned `true`. -/
theorem c6_remove_player_once (players : List Nat) (p : Nat) :
    ((remove_player players p).2 = true ↔ p ∈ players) ∧
    (p ∈ players →
      (remove_player players p).1.count p = players.count p - 1) ∧
    (players.count p = 1 →
      (remove_player players p).2 = true ∧
      (remove_player (remove_player players p).1 p).2 = false) ∧
    ((loop_termination players p).2.2 = (remove_player players p).2) := by
  have he := remove_player_eq_erase players p
  refine ⟨?_, ?_, ?_, rfl⟩
  · rw [he]; simp
  · intro hm
    rw [he]
    simpa using List.count_erase_self p players
  · intro hc
    have hm : p ∈ players := by
      have : players.count p ≠ 0 := by omega
      exact List.count_pos_iff_mem.mp (by omega)
    constructor
    · rw [he]; simpa using hm
    · rw [remove_player_eq_erase, he]
      simp only [decide_eq_false_iff_not]
      intro hmem
      have := List.count_erase_self p players
      have hpos : 0 < (players.erase p).count p :=
        List.count_pos_iff_mem.mpr hmem
      omega

/-- C10: `get_server_by_domain` returns the first configured server (in
configuration order, expressed by `List.find?`) whose domains contain
the requested domain; if none does, the first server whose domains
contain the wildcard entry `"_"`; if neither exists, `none`. -/
theorem c10_domain_routing (c : config.ProxyConfig) (domain : String) :
    c.get_server_by_domain domain =
      (c.servers.find? (fun s => s.domains.contains domain)).or
        (c.servers.find? (fun s => s.domains.contains ("_"))) := by
  unfold config.ProxyConfig.get_server_by_domain
  rw [findByDomain_eq_find, findByDomain_eq_find]
  cases c.servers.find? (fun s => s.domains.contains domain) with
  | some s => simp [Option.or]
  | none => simp [Option.or]

/-- C1, counterexample: on the wire byte `[2]` the decoded threshold is
`1 ≥ 0`, but the handler configures both codecs with threshold `2` (the
zigzag re-encoding of `1`), not with the decoded result `1` as the
claim states. -/
theorem c1_counterexample :
    readIsizeVarint [2] = some (1, []) ∧
    handle_compression_packet [2] = some (some 2, some 2) ∧
    handle_compression_packet [2] ≠ some (some 1, some 1) := by
  decide

/-- C1 as amended: when the `0x03` handler (login driver and server-swap
replay alike) decodes the threshold `t` via `read_isize_varint`
(zigzag decoding), then for `t ≥ 0` it calls `set_compression` on both
the client- and upstream-side codecs with the zigzag re-encoding of `t`
(which is `2·t`, the raw wire varint value, and not `t` itself), for
`t < 0` it disables compression on both, and a decoded threshold of `0`
still enables compression with threshold `0` on both codecs. -/
theorem c1_set_compression_both (payload : List Nat) (t : Int)
    (rest : List Nat) (h : readIsizeVarint payload = some (t, rest)) :
    (0 ≤ t → handle_compression_packet payload =
      some (some (zigzagEncode t), some (zigzagEncode t))) ∧
    (t < 0 → handle_compression_packet payload = some (none, none)) ∧
    (t = 0 → handle_compression_packet payload = some (some 0, some 0)) := by
  have hh : handle_compression_packet payload =
      if 0 ≤ t then some (some (zigzagEncode t), some (zigzagEncode t))
      else some (none, none) := by
    unfold handle_compression_packet
    rw [h]
  refine ⟨?_, ?_, ?_⟩ <;> intro ht
  · rw [hh, if_pos ht]
  · rw [hh, if_neg (by omega)]
  · subst ht
    rw [hh, if_pos le_rfl]
    norm_num [zigzagEncode]

/-- Witness for `c1_set_compression_both` at the concrete payload `[0]`. -/
theorem c1_set_compression_both_witness :
    handle_compression_packet [0] = some (some 0, some 0) :=
  (c1_set_compression_both [0] 0 [] (by decide)).2.2 rfl

/-- C2, counterexample: a session whose client codec has no compression
configured receives, during the `connect_server` swap replay, a `0x03`
packet carrying the usize varint `128`; `LoginInfo::write` configures
only the new upstream stream (client stays `none`, upstream becomes
`some 128`), so the two thresholds differ afterwards. -/
theorem c2_counterexample :
    LoginInfo.write_compression_step [128, 1] none none =
      some (none, some 128) ∧
    (none : Option Nat) ≠ some 128 := by
  decide

/-- C2 as amended: the two `0x03` handlers of the meexprox.rs driver
(initial login and swap replay, `handle_compression_packet`) and the
`0x03` arm of `Player::read` always leave the client- and upstream-side
thresholds equal (so those operations change both codecs together), but
the `0x03` arm of `LoginInfo::write` (the connection.rs server-swap
replay) sets compression only on the new upstream stream and leaves the
client codec unchanged, so after such a swap the two thresholds can
differ. -/
theorem c2_compression_threshold_sync :
    (∀ payload c s, handle_compression_packet payload = some (c, s) → c = s) ∧
    (∀ payload c s, Player.read_compression_step payload = some (c, s) → c = s) ∧
    (∀ payload n rest c₀ s₀, readVarNat payload = some (n, rest) →
      LoginInfo.write_compression_step payload c₀ s₀ = some (c₀, some n)) := by
  refine ⟨?_, ?_, ?_⟩
  · intro payload c s h
    unfold handle_compression_packet at h
    rcases hr : readIsizeVarint payload with _ | ⟨t, r⟩ <;> rw [hr] at h
    · exact absurd h (by simp)
    · have h' : (if 0 ≤ t then
          some (some (zigzagEncode t), some (zigzagEncode t))
          else some (none, none) : Option (Option Nat × Option Nat)) =
          some (c, s) := h
      by_cases ht : 0 ≤ t
      · rw [if_pos ht] at h'
        injection h' with h''
        injection h'' with h1 h2
        rw [← h1, ← h2]
      · rw [if_neg ht] at h'
        injection h' with h''
        injection h'' with h1 h2
        rw [← h1, ← h2]
  · intro payload c s h
    unfold Player.read_compression_step at h
    rcases hr : readVarNat payload with _ | ⟨n, r⟩ <;> rw [hr] at h
    · exact absurd h (by simp)
    · injection h with h'
      injection h' with h1 h2
      rw [← h1, ← h2]
  · intro payload n rest c₀ s₀ h
    unfold LoginInfo.write_compression_step
    rw [h]

/-- Witness for `c2_compression_threshold_sync` at concrete payloads. -/
theorem c2_compression_threshold_sync_witness :
    (some 2 : Option Nat) = some 2 ∧
    LoginInfo.write_compression_step [5] (some 7) none = some (some 7, some 5) :=
  ⟨c2_compression_threshold_sync.1 [2] (some 2) (some 2) (by decide),
   c2_compression_threshold_sync.2.2 [5] 5 [] (some 7) none (by decide)⟩

/-- C4 (code bug): for captured `shared_secret = [1,2]` and
`verify_token = [3,4,5]`, the synthesized EncryptionResponse of the
server-swap replay prefixes the verify token with `varint(2)` (the
shared secret's length, meexprox.rs line 317) instead of `varint(3)`
as the claim (and `LoginInfo::write`, connection.rs line 45) states. -/
theorem c4_enc_response_length_bug :
    enc_response_payload [1, 2] [3, 4, 5] = [2, 1, 2, 2, 3, 4, 5] ∧
    spec_enc_response_payload [1, 2] [3, 4, 5] = [2, 1, 2, 3, 3, 4, 5] ∧
    enc_response_payload [1, 2] [3, 4, 5] ≠
      spec_enc_response_payload [1, 2] [3, 4, 5] := by
  have h2 : writeVarNat 2 = [2] := by unfold writeVarNat; norm_num
  have h3 : writeVarNat 3 = [3] := by unfold writeVarNat; norm_num
  refine ⟨?_, ?_, ?_⟩ <;>
    simp [enc_response_payload, spec_enc_response_payload, h2, h3]

/-- Witness for `c6_remove_player_once` at a concrete player set. -/
theorem c6_remove_player_once_witness :
    (remove_player [5, 7] 7).2 = true ∧
    (remove_player [5, 7] 7).1.count 7 = [5, 7].count 7 - 1 ∧
    (remove_player (remove_player [5, 7] 7).1 7).2 = false :=
  ⟨(c6_remove_player_once [5, 7] 7).1.mpr (by decide),
   (c6_remove_player_once [5, 7] 7).2.1 (by decide),
   ((c6_remove_player_once [5, 7] 7).2.2.1 (by decide)).2⟩

/-! ## Forwarding loops (meexprox.rs lines 373-397 and 404-429)

The two per-session forwarding tasks are symmetric: read a packet
(`reads` is the sequence of successful reads; the loop ends when a read
fails), run the Recv* event (listeners may mutate the packet), run the
Send* event (listeners may mutate and cancel), and, unless cancelled,
write the packet to the opposite codec; a failed write breaks the loop,
a cancelled send merely skips the write.  The result is the sequence of
packets actually written. -/

def forwarding_loop (reads : List Packet) (recvEv : Packet → Packet)
    (sendEv : Packet → Packet × Bool) (writeOk : Packet → Bool) :
    List Packet :=
  match reads with
  | [] => []
  | p :: rest =>
    let e := sendEv (recvEv p)
    if e.2 then forwarding_loop rest recvEv sendEv writeOk
    else if writeOk e.1 then e.1 :: forwarding_loop rest recvEv sendEv writeOk
    else []

/-! ## Session state and server swap (meexprox.rs) -/

/-- The per-direction framed connection state the claims are about:
the codec's compression threshold and whether the underlying TCP
stream has been closed by the proxy. -/
structure Conn where
  compression : Option Nat
  closed : Bool
deriving DecidableEq, Repr

/-- `ProxyPlayer` (meexprox.rs lines 22-34).  `name`, `uuid` and the
captured encryption material are kept as raw byte lists. -/
structure ProxyPlayer where
  client_conn : Conn
  server_conn : Conn
  connection_threads : List Nat
  name : Option (List Nat)
  uuid : Option (List Nat)
  protocol_version : Nat
  server : Option ProxyServer
  shared_secret : Option (List Nat)
  verify_token : Option (List Nat)
deriving DecidableEq, Repr

/-- `std::net::SocketAddr` as used by the handshake forwarding suffix. -/
inductive SocketAddr where
  | v4 (port : Nat) (octets : List Nat)
  | v6 (port : Nat) (octets : List Nat)
deriving DecidableEq, Repr

/-- The client-address suffix appended to the handshake when
`player_forwarding` is `Handshake` (meexprox.rs lines 236-246):
`boolean is_ipv6 || unsigned_short port || raw ip octets`. -/
def forwarding_suffix (pf : PlayerForwarding) (addr : SocketAddr) :
    List Nat :=
  match pf with
  | PlayerForwarding.handshake =>
    match addr with
    | SocketAddr.v4 port octets => 0 :: writeUnsignedShort port ++ octets
    | SocketAddr.v6 port octets => 1 :: writeUnsignedShort port ++ octets
  | _ => []

/-- Payload of the handshake packet built by
`ProxyPlayer::send_handshake` (meexprox.rs lines 230-249):
`varint protocol_version || string server_address || unsigned_short
server_port || varint 2 || forwarding suffix`. -/
def handshake_payload (protocolVersion : Nat) (serverAddress : List Nat)
    (serverPort : Nat) (pf : PlayerForwarding) (addr : SocketAddr) :
    List Nat :=
  writeVarNat protocolVersion ++
    (writeVarNat serverAddress.length ++ serverAddress) ++
    writeUnsignedShort serverPort ++ writeVarNat 2 ++
    forwarding_suffix pf addr

/-- Payload of the LoginStart packet built by `ProxyPlayer::send_login`
(meexprox.rs lines 263-267): `string name || uuid`. -/
def login_payload (name uuid : List Nat) : List Nat :=
  writeVarNat name.length ++ name ++ uuid

/-- `ProxyPlayer::send_handshake` (meexprox.rs lines 220-258): build the
handshake, run the `SendServerPacketEvent`, write unless cancelled.
Returns the packets written to the upstream. -/
def send_handshake (p : ProxyPlayer) (pf : PlayerForwarding)
    (addr : SocketAddr) (serverAddress : List Nat) (serverPort : Nat)
    (sendEv : Packet → Packet × Bool) : List Packet :=
  let e := sendEv ⟨0, handshake_payload p.protocol_version serverAddress
    serverPort pf addr⟩
  if e.2 then [] else [e.1]

/-- `ProxyPlayer::send_login` (meexprox.rs lines 260-279): if both name
and uuid are present, build the LoginStart, run the event, write unless
cancelled. -/
def send_login (p : ProxyPlayer) (sendEv : Packet → Packet × Bool) :
    List Packet :=
  match p.name, p.uuid with
  | some n, some u =>
    let e := sendEv ⟨0, login_payload n u⟩
    if e.2 then [] else [e.1]
  | _, _ => []

/-- The login-replay loop of `ProxyPlayer::connect` (meexprox.rs lines
309-349): for each upstream packet, on id `0x01` synthesize the
EncryptionResponse from the captured material (when present) and write
it unless the send event cancels; on id `0x03` run the compression
handler (a malformed threshold aborts `connect` through `?`); on id
`0x02` break.  Returns the final (client, upstream) compression pair,
the packets written upstream, and whether the loop completed (reaching
`0x02` or exhausting the reads) rather than aborting. -/
def replay_loop (pkts : List Packet) (ss vt : Option (List Nat))
    (sendEv : Packet → Packet × Bool) (comps : Option Nat × Option Nat) :
    (Option Nat × Option Nat) × List Packet × Bool :=
  match pkts with
  | [] => (comps, [], true)
  | pkt :: rest =>
    let writes1 : List Packet :=
      if pkt.id = 1 then
        match ss, vt with
        | some s, some v =>
          let e := sendEv ⟨1, enc_response_payload s v⟩
          if e.2 then [] else [e.1]
        | _, _ => []
      else []
    if pkt.id = 3 then
      match handle_compression_packet pkt.payload with
      | none => (comps, writes1, false)
      | some comps' =>
        let r := replay_loop rest ss vt sendEv comps'
        (r.1, writes1 ++ r.2.1, r.2.2)
    else if pkt.id = 2 then
      (comps, writes1, true)
    else
      let r := replay_loop rest ss vt sendEv comps
      (r.1, writes1 ++ r.2.1, r.2.2)

/-- Result of `ProxyPlayer::connect`: the session state afterwards, the
packets written to the upstream by the replay, and whether the two
forwarding loops were spawned (reaching them is the transition into
Play; `connection_threads` is replaced exactly then, meexprox.rs line
431). -/
structure ConnectResult where
  player : ProxyPlayer
  written_upstream : List Packet
  loops_spawned : Bool
deriving DecidableEq, Repr

/-- `ProxyPlayer::connect` (meexprox.rs lines 281-434).  `logged = true`
(the initial login, meexprox.rs line 650) skips the whole replay block
of lines 297-359, including the synthesized LoginAcknowledged;
`logged = false` (every server swap) sends handshake and LoginStart,
runs the replay loop, and finally writes the empty `0x03`
LoginAcknowledged unless the send event cancels it.  The early return
of line 293-295 fires when the session has no name yet. -/
def ProxyPlayer.connect (p : ProxyPlayer) (logged : Bool)
    (pf : PlayerForwarding) (addr : SocketAddr) (serverAddress : List Nat)
    (serverPort : Nat) (sendEv : Packet → Packet × Bool)
    (serverPackets : List Packet) (newThreads : List Nat) : ConnectResult :=
  match p.name with
  | Option.none => ⟨p, [], false⟩
  | some _ =>
    if logged then
      ⟨{ p with connection_threads := newThreads }, [], true⟩
    else
      let w0 := send_handshake p pf addr serverAddress serverPort sendEv
      let w1 := send_login p sendEv
      let r := replay_loop serverPackets p.shared_secret p.verify_token
        sendEv (p.client_conn.compression, p.server_conn.compression)
      let p' := { p with
        client_conn := { p.client_conn with compression := r.1.1 },
        server_conn := { p.server_conn with compression := r.1.2 } }
      if r.2.2 then
        let e := sendEv (Packet.empty 3)
        ⟨{ p' with connection_threads := newThreads },
          w0 ++ w1 ++ r.2.1 ++ (if e.2 then [] else [e.1]), true⟩
      else
        ⟨p', w0 ++ w1 ++ r.2.1, false⟩

/-- `ProxyPlayer::connect_to_server` (meexprox.rs lines 146-185):
dispatch `PlayerConnectingServerEvent` (return unchanged on cancel),
abort the forwarding tasks, close the old upstream socket, set
`server`, dial the new upstream (`dial = none` models a dial failure,
which aborts with `ServerConnect` semantics), then run `connect` with
`logged = false`.  Returns the session, the packets written to the new
upstream, and whether the call returned without error. -/
def ProxyPlayer.connect_to_server (p : ProxyPlayer) (evServer : ProxyServer)
    (evCancel : Bool) (dial : Option Conn) (pf : PlayerForwarding)
    (addr : SocketAddr) (serverAddress : List Nat) (serverPort : Nat)
    (sendEv : Packet → Packet × Bool) (serverPackets : List Packet)
    (newThreads : List Nat) : ProxyPlayer × List Packet × Bool :=
  if evCancel then (p, [], true)
  else
    let p1 := { p with server_conn := { p.server_conn with closed := true },
                       server := some evServer }
    match dial with
    | Option.none => (p1, [], false)
    | some c =>
      let r := ProxyPlayer.connect { p1 with server_conn := c } false pf addr
        serverAddress serverPort sendEv serverPackets newThreads
      (r.player, r.written_upstream, true)

/-- `ProxyPlayer::connect_to_ip` (meexprox.rs lines 105-144): like
`connect_to_server` but driven by `PlayerConnectingIPEvent` and without
touching the `server` field. -/
def ProxyPlayer.connect_to_ip (p : ProxyPlayer) (evCancel : Bool)
    (dial : Option Conn) (pf : PlayerForwarding) (addr : SocketAddr)
    (serverAddress : List Nat) (serverPort : Nat)
    (sendEv : Packet → Packet × Bool) (serverPackets : List Packet)
    (newThreads : List Nat) : ProxyPlayer × List Packet × Bool :=
  if evCancel then (p, [], true)
  else
    let p1 := { p with server_conn := { p.server_conn with closed := true } }
    match dial with
    | Option.none => (p1, [], false)
    | some c =>
      let r := ProxyPlayer.connect { p1 with server_conn := c } false pf addr
        serverAddress serverPort sendEv serverPackets newThreads
      (r.player, r.written_upstream, true)

/-- `ProxyPlayer::reconnect` (meexprox.rs lines 187-218): no event;
abort the tasks, close the old upstream, re-dial the current server's
host (`none` when `server` is unset models the `unwrap` panic), then
`connect` with `logged = false`. -/
def ProxyPlayer.reconnect (p : ProxyPlayer) (dial : Option Conn)
    (pf : PlayerForwarding) (addr : SocketAddr) (serverAddress : List Nat)
    (serverPort : Nat) (sendEv : Packet → Packet × Bool)
    (serverPackets : List Packet) (newThreads : List Nat) :
    Option (ProxyPlayer × List Packet × Bool) :=
  match p.server with
  | Option.none => Option.none
  | some _ =>
    let p1 := { p with server_conn := { p.server_conn with closed := true } }
    some (match dial with
    | Option.none => (p1, [], false)
    | some c =>
      let r := ProxyPlayer.connect { p1 with server_conn := c } false pf addr
        serverAddress serverPort sendEv serverPackets newThreads
      (r.player, r.written_upstream, true))

/-! ## Login branch of `accept_client` (meexprox.rs lines 562-651)

The branch is modelled as the ordered trace of its session-visible
actions.  The inputs are the parse results the source obtains from the
wire: the resolved server, the (possibly listener-mutated) server and
cancellation flag of `PlayerConnectingServerEvent`, and the outcome of
reading the client's LoginStart (`none` models a read/parse error,
whose `?` ends the branch). -/

inductive LoginAct where
  | constructPlayer (pl : ProxyPlayer)
  | dispatchConnecting
  | insertPlayer (pl : ProxyPlayer)
  | readLoginStart
  | setIdentity (name uuid : List Nat)
  | forwardLoginStart
  | runLoginPhase
  | dispatchConnected
  | callConnect (logged : Bool)
deriving DecidableEq, Repr

/-- The `next_state == 2` branch of `MeexProx::accept_client`
(meexprox.rs lines 562-651), in source order: construct the
`ProxyPlayer` with `name: None, uuid: None` (lines 563-573), dispatch
`PlayerConnectingServerEvent` (575-576), return on cancel (578-580),
store the event's server (582), push the session into the proxy set
(584), only then read the client's LoginStart (586) and set
name and uuid (588-589), forward it upstream (591), run the login
phase loop (593-626), dispatch `PlayerConnectedEvent` (642) and call
`connect` with `logged = true` (644-651). -/
def accept_client_login_branch (protocolVersion : Nat)
    (server : ProxyServer) (clientConn serverConn : Conn)
    (evServer : ProxyServer) (evCancel : Bool)
    (loginStart : Option (List Nat × List Nat)) : List LoginAct :=
  let player0 : ProxyPlayer :=
    ⟨clientConn, serverConn, [], Option.none, Option.none, protocolVersion,
      some server, Option.none, Option.none⟩
  LoginAct.constructPlayer player0 :: LoginAct.dispatchConnecting ::
    (if evCancel then []
     else
       LoginAct.insertPlayer { player0 with server := some evServer } ::
       LoginAct.readLoginStart ::
       (match loginStart with
        | Option.none => []
        | some (n, u) =>
          [LoginAct.setIdentity n u, LoginAct.forwardLoginStart,
           LoginAct.runLoginPhase, LoginAct.dispatchConnected,
           LoginAct.callConnect true]))

/-- The session fields the server-swap operations must not touch:
identity, captured login material, and the client-side socket's
closed-ness. -/
def same_identity_and_client (p q : ProxyPlayer) : Prop :=
  q.name = p.name ∧ q.uuid = p.uuid ∧
  q.protocol_version = p.protocol_version ∧
  q.shared_secret = p.shared_secret ∧ q.verify_token = p.verify_token ∧
  q.client_conn.closed = p.client_conn.closed

theorem connect_preserves_identity (p : ProxyPlayer) (logged : Bool)
    (pf : PlayerForwarding) (addr : SocketAddr) (sa : List Nat) (sp : Nat)
    (sendEv : Packet → Packet × Bool) (pkts : List Packet) (th : List Nat) :
    same_identity_and_client p
      (p.connect logged pf addr sa sp sendEv pkts th).player := by
  unfold same_identity_and_client ProxyPlayer.connect
  cases hn : p.name with
  | none => simp [hn]
  | some n =>
    cases logged with
    | true => simp
    | false =>
      simp only [Bool.false_eq_true, if_false]
      split <;> simp

/-! ## Claim theorems: C3, C7, C8, C9 -/

/-- C3, counterexample: on the initial login `connect` is called with
`logged = true` (meexprox.rs line 650), which skips the whole replay
block of lines 297-359; even though the session reaches Play (the
forwarding loops are spawned), no packet at all — in particular no
synthesized `0x03` LoginAcknowledged — is written upstream by
`connect`, contradicting the claim that the emission happens on the
initial login as well. -/
theorem c3_counterexample :
    (ProxyPlayer.connect
      ⟨⟨some 256, false⟩, ⟨some 256, false⟩, [], some [120], some [7], 764,
        some ⟨"a", "h", Option.none⟩, Option.none, Option.none⟩
      true PlayerForwarding.disabled (SocketAddr.v4 0 [127, 0, 0, 1])
      [120] 25565 (fun pk => (pk, false)) [Packet.empty 2]
      [1, 2]).written_upstream = [] ∧
    (ProxyPlayer.connect
      ⟨⟨some 256, false⟩, ⟨some 256, false⟩, [], some [120], some [7], 764,
        some ⟨"a", "h", Option.none⟩, Option.none, Option.none⟩
      true PlayerForwarding.disabled (SocketAddr.v4 0 [127, 0, 0, 1])
      [120] 25565 (fun pk => (pk, false)) [Packet.empty 2]
      [1, 2]).loops_spawned = true :=
  ⟨rfl, rfl⟩

/-- C3 as amended: the synthesized empty `0x03` LoginAcknowledged is
emitted upstream only on server swaps.  With non-mutating,
non-cancelling listeners: on the initial login (`logged = true`) the
session transitions to Play with nothing written upstream by
`connect`; on a server swap (`logged = false`) whose replay completes,
`connect` writes the handshake, the LoginStart, the replay's writes,
and finally the synthesized `Packet.empty 3`, and transitions to
Play.  (During the swap replay, upstream packets are not forwarded to
the client at all; on the initial login the login-phase loop of
`accept_client` does forward them.) -/
theorem c3_login_ack_only_on_swap (p : ProxyPlayer)
    (pf : PlayerForwarding) (addr : SocketAddr) (sa : List Nat) (sp : Nat)
    (sendEv : Packet → Packet × Bool) (pkts : List Packet) (th : List Nat)
    (n u : List Nat) (hname : p.name = some n) (huuid : p.uuid = some u)
    (hev : ∀ pk, sendEv pk = (pk, false)) :
    ((p.connect true pf addr sa sp sendEv pkts th).written_upstream = [] ∧
     (p.connect true pf addr sa sp sendEv pkts th).loops_spawned = true) ∧
    ((replay_loop pkts p.shared_secret p.verify_token sendEv
        (p.client_conn.compression, p.server_conn.compression)).2.2 = true →
      (p.connect false pf addr sa sp sendEv pkts th).written_upstream =
        Packet.mk 0 (handshake_payload p.protocol_version sa sp pf addr) ::
        Packet.mk 0 (login_payload n u) ::
        (replay_loop pkts p.shared_secret p.verify_token sendEv
          (p.client_conn.compression, p.server_conn.compression)).2.1 ++
        [Packet.empty 3] ∧
      (p.connect false pf addr sa sp sendEv pkts th).loops_spawned = true) := by
  constructor
  · unfold ProxyPlayer.connect
    rw [hname]
    exact ⟨rfl, rfl⟩
  · intro hdone
    unfold ProxyPlayer.connect
    rw [hname]
    simp only [Bool.false_eq_true, if_false]
    unfold send_handshake send_login
    rw [hname, huuid]
    simp only [hev, hdone, if_true, if_false, Bool.false_eq_true]
    constructor
    · simp
    · trivial

/-- Witness for `c3_login_ack_only_on_swap` at a concrete session and a
replay consisting of a lone LoginSuccess. -/
theorem c3_login_ack_only_on_swap_witness :
    (ProxyPlayer.connect
      ⟨⟨Option.none, false⟩, ⟨Option.none, false⟩, [], some [120], some [7],
        764, Option.none, Option.none, Option.none⟩
      false PlayerForwarding.disabled (SocketAddr.v4 0 [127, 0, 0, 1])
      [120] 25565 (fun pk => (pk, false)) [Packet.empty 2]
      [9]).written_upstream =
      Packet.mk 0 (handshake_payload 764 [120] 25565
        PlayerForwarding.disabled (SocketAddr.v4 0 [127, 0, 0, 1])) ::
      Packet.mk 0 (login_payload [120] [7]) ::
      [] ++ [Packet.empty 3] :=
  ((c3_login_ack_only_on_swap
    ⟨⟨Option.none, false⟩, ⟨Option.none, false⟩, [], some [120], some [7],
      764, Option.none, Option.none, Option.none⟩
    PlayerForwarding.disabled (SocketAddr.v4 0 [127, 0, 0, 1])
    [120] 25565 (fun pk => (pk, false)) [Packet.empty 2] [9]
    [120] [7] rfl rfl (fun pk => rfl)).2 rfl).1

/-- C7: in both forwarding loops, when every write succeeds, the
written sequence is exactly the read sequence passed through the
Recv*/Send* events with the cancelled packets dropped: a cancelled
send suppresses only that write, the loop goes on reading, and every
subsequent non-cancelled packet is still forwarded in read order. -/
theorem c7_cancelled_send_skips_write (reads : List Packet)
    (recvEv : Packet → Packet) (sendEv : Packet → Packet × Bool)
    (writeOk : Packet → Bool) (hw : ∀ q, writeOk q = true) :
    forwarding_loop reads recvEv sendEv writeOk =
      reads.filterMap (fun p =>
        if (sendEv (recvEv p)).2 then Option.none
        else some (sendEv (recvEv p)).1) := by
  induction reads with
  | nil => rfl
  | cons p rest ih =>
    simp only [forwarding_loop, List.filterMap_cons]
    by_cases hc : (sendEv (recvEv p)).2 = true
    · simp [hc, ih]
    · rw [Bool.not_eq_true] at hc
      simp [hc, hw, ih]

/-- Witness for `c7_cancelled_send_skips_write`: the first packet's
send is cancelled, the second is still forwarded. -/
theorem c7_cancelled_send_skips_write_witness :
    forwarding_loop [⟨1, [10]⟩, ⟨2, [20]⟩] (fun p => p)
      (fun p => (p, p.id == 1)) (fun _ => true) = [⟨2, [20]⟩] := by
  rw [c7_cancelled_send_skips_write _ _ _ _ (fun q => rfl)]
  rfl

/-- C8, counterexample: with a non-cancelled
`PlayerConnectingServerEvent`, the trace of the login branch inserts
the session into the proxy set (index 2) with `name = None` and
`uuid = None`, and only afterwards (index 3) reads the client's
LoginStart — contradicting the claim that the session is inserted only
after LoginStart has been read with name and uuid already set. -/
theorem c8_counterexample :
    (accept_client_login_branch 764 ⟨"a", "h", Option.none⟩
        ⟨Option.none, false⟩ ⟨Option.none, false⟩ ⟨"a", "h", Option.none⟩
        false (some ([120], [7])))[2]? =
      some (LoginAct.insertPlayer
        ⟨⟨Option.none, false⟩, ⟨Option.none, false⟩, [], Option.none,
          Option.none, 764, some ⟨"a", "h", Option.none⟩, Option.none,
          Option.none⟩) ∧
    (⟨⟨Option.none, false⟩, ⟨Option.none, false⟩, [], Option.none,
        Option.none, 764, some ⟨"a", "h", Option.none⟩, Option.none,
        Option.none⟩ : ProxyPlayer).name = Option.none ∧
    (accept_client_login_branch 764 ⟨"a", "h", Option.none⟩
        ⟨Option.none, false⟩ ⟨Option.none, false⟩ ⟨"a", "h", Option.none⟩
        false (some ([120], [7])))[3]? = some LoginAct.readLoginStart :=
  ⟨rfl, rfl, rfl⟩

/-- C8 as amended: if a listener cancels `PlayerConnectingServerEvent`
the trace ends immediately — the session is never inserted and the
connection is torn down; otherwise the session is inserted into the
proxy set *before* the client's LoginStart is read, with `name` and
`uuid` still unset at insertion time (they are set right after the
read). -/
theorem c8_insert_precedes_login_read (pv : Nat)
    (server evServer : ProxyServer) (cc sc : Conn)
    (ls : Option (List Nat × List Nat)) :
    (accept_client_login_branch pv server cc sc evServer true ls =
      [LoginAct.constructPlayer
        ⟨cc, sc, [], Option.none, Option.none, pv, some server,
          Option.none, Option.none⟩,
       LoginAct.dispatchConnecting]) ∧
    (accept_client_login_branch pv server cc sc evServer false ls =
      LoginAct.constructPlayer
        ⟨cc, sc, [], Option.none, Option.none, pv, some server,
          Option.none, Option.none⟩ ::
      LoginAct.dispatchConnecting ::
      LoginAct.insertPlayer
        ⟨cc, sc, [], Option.none, Option.none, pv, some evServer,
          Option.none, Option.none⟩ ::
      LoginAct.readLoginStart ::
      (match ls with
       | Option.none => []
       | some (n, u) =>
         [LoginAct.setIdentity n u, LoginAct.forwardLoginStart,
          LoginAct.runLoginPhase, LoginAct.dispatchConnected,
          LoginAct.callConnect true])) :=
  ⟨rfl, rfl⟩

/-- C9: the three server-swap operations close/replace only the
upstream side: the client-side connection is never closed by them, and
`name`, `uuid`, `protocol_version`, `shared_secret` and `verify_token`
keep their values (only the upstream connection, the `server` field and
the forwarding-task handles may change). -/
theorem c9_swap_leaves_client_side_alone (p : ProxyPlayer)
    (evServer : ProxyServer) (evCancel : Bool) (dial : Option Conn)
    (pf : PlayerForwarding) (addr : SocketAddr) (sa : List Nat) (sp : Nat)
    (sendEv : Packet → Packet × Bool) (pkts : List Packet)
    (th : List Nat) :
    same_identity_and_client p
      (p.connect_to_server evServer evCancel dial pf addr sa sp sendEv
        pkts th).1 ∧
    same_identity_and_client p
      (p.connect_to_ip evCancel dial pf addr sa sp sendEv pkts th).1 ∧
    (∀ q w b, p.reconnect dial pf addr sa sp sendEv pkts th =
        some (q, w, b) → same_identity_and_client p q) := by
  have hframe : ∀ p' : ProxyPlayer, p'.name = p.name → p'.uuid = p.uuid →
      p'.protocol_version = p.protocol_version →
      p'.shared_secret = p.shared_secret →
      p'.verify_token = p.verify_token →
      p'.client_conn = p.client_conn →
      same_identity_and_client p
        (p'.connect false pf addr sa sp sendEv pkts th).player := by
    intro p' h1 h2 h3 h4 h5 h6
    have := connect_preserves_identity p' false pf addr sa sp sendEv pkts th
    unfold same_identity_and_client at this ⊢
    rw [h1, h2, h3, h4, h5, h6] at this
    exact this
  refine ⟨?_, ?_, ?_⟩
  · unfold ProxyPlayer.connect_to_server
    cases evCancel with
    | true => simp [same_identity_and_client]
    | false =>
      cases dial with
      | none => simp [same_identity_and_client]
      | some c =>
        simp only [Bool.false_eq_true, if_false]
        exact hframe _ rfl rfl rfl rfl rfl rfl
  · unfold ProxyPlayer.connect_to_ip
    cases evCancel with
    | true => simp [same_identity_and_client]
    | false =>
      cases dial with
      | none => simp [same_identity_and_client]
      | some c =>
        simp only [Bool.false_eq_true, if_false]
        exact hframe _ rfl rfl rfl rfl rfl rfl
  · intro q w b hq
    cases hs : p.server with
    | none =>
      simp only [ProxyPlayer.reconnect, hs] at hq
      exact Option.noConfusion hq
    | some s =>
      cases dial with
      | none =>
        simp only [ProxyPlayer.reconnect, hs, Option.some.injEq,
          Prod.mk.injEq] at hq
        obtain ⟨h1, -, -⟩ := hq
        rw [← h1]
        simp [same_identity_and_client]
      | some c =>
        simp only [ProxyPlayer.reconnect, hs, Option.some.injEq,
          Prod.mk.injEq] at hq
        obtain ⟨h1, -, -⟩ := hq
        rw [← h1]
        exact hframe _ rfl rfl rfl rfl rfl rfl

/-- Witness for `c9_swap_leaves_client_side_alone`: a `reconnect` whose
dial fails closes the old upstream connection and nothing else. -/
theorem c9_swap_leaves_client_side_alone_witness :
    same_identity_and_client
      ⟨⟨some 5, false⟩, ⟨some 5, false⟩, [3], some [120], some [7], 764,
        some ⟨"a", "h", Option.none⟩, some [1], some [2]⟩
      ⟨⟨some 5, false⟩, ⟨some 5, true⟩, [3], some [120], some [7], 764,
        some ⟨"a", "h", Option.none⟩, some [1], some [2]⟩ :=
  (c9_swap_leaves_client_side_alone
    ⟨⟨some 5, false⟩, ⟨some 5, false⟩, [3], some [120], some [7], 764,
      some ⟨"a", "h", Option.none⟩, some [1], some [2]⟩
    ⟨"a", "h", Option.none⟩ false Option.none PlayerForwarding.disabled
    (SocketAddr.v4 0 []) [120] 25565 (fun pk => (pk, false)) []
    []).2.2
    ⟨⟨some 5, false⟩, ⟨some 5, true⟩, [3], some [120], some [7], 764,
      some ⟨"a", "h", Option.none⟩, some [1], some [2]⟩
    [] false rfl
